/-
Verification of the deterministic extraction and reconciliation pipeline of
the citi_financial_analysis repository.

The Python sources are shallowly embedded:
  * utils.find_quarter_year_from_filename  (regex cascade over filenames)
  * main.compare_values / is_within_tolerance  (tolerance comparator)
  * excel_reader_no_llm.detect_header_rows / find_column_index_for_quarter_year /
    get_metrics_from_df / get_metrics_values_from_excel
  * pdf_reader_no_llm.get_metrics_values_from_pdf  (frequency disambiguation stage)
  * utils.is_loosely_contained_nltk_no_punctuation / strip_trailing_numbers /
    get_edit_distance_score

Numeric values are modelled with the rationals; Python regular expressions are
modelled with a small backtracking matcher whose alternative order reproduces
the order of the re module (lazy star shortest-first, greedy option and star,
alternation left-first, leftmost search position first).  Pandas NaN cells are
modelled with Option.
-/
import Mathlib

set_option maxRecDepth 100000

/-! ### A small regex engine

Only the constructs used by the patterns in utils.py are present: single
character classes, greedy option, greedy star of a class, the lazy dot-star,
concatenation, alternation and named capture groups.  matchRx returns the
list of (remaining input, captures) pairs in the priority order of the Python
re module; searchRx scans start positions left to right. -/

inductive Rx where
  | eps : Rx
  | cls (p : Char → Bool) : Rx
  | opt (r : Rx) : Rx
  | lazyStarAny : Rx
  | star (p : Char → Bool) : Rx
  | seq (r₁ r₂ : Rx) : Rx
  | alt (r₁ r₂ : Rx) : Rx
  | grp (n : String) (r : Rx) : Rx

abbrev Caps := List (String × String)

def matchRx : Rx → List Char → List (List Char × Caps)
  | Rx.eps, cs => [(cs, [])]
  | Rx.cls _, [] => []
  | Rx.cls p, c :: cs => if p c then [(cs, [])] else []
  | Rx.opt r, cs => matchRx r cs ++ [(cs, [])]
  | Rx.lazyStarAny, cs => cs.tails.map (fun t => (t, []))
  | Rx.star p, cs =>
      ((List.range ((cs.takeWhile p).length + 1)).reverse).map (fun j => (cs.drop j, []))
  | Rx.seq r₁ r₂, cs =>
      (matchRx r₁ cs).flatMap (fun pr =>
        (matchRx r₂ pr.1).map (fun pr₂ => (pr₂.1, pr.2 ++ pr₂.2)))
  | Rx.alt r₁ r₂, cs => matchRx r₁ cs ++ matchRx r₂ cs
  | Rx.grp n r, cs =>
      (matchRx r cs).map (fun pr =>
        (pr.1, (n, String.mk (cs.take (cs.length - pr.1.length))) :: pr.2))

def searchAux (r : Rx) : List Char → Option Caps
  | [] =>
      match matchRx r [] with
      | (_, caps) :: _ => some caps
      | [] => none
  | c :: t =>
      match matchRx r (c :: t) with
      | (_, caps) :: _ => some caps
      | [] => searchAux r t

def searchRx (r : Rx) (s : String) : Option Caps :=
  searchAux r s.data

/-! ### The nine filename patterns of utils.find_quarter_year_from_filename -/

def rxSeq (l : List Rx) : Rx := l.foldr Rx.seq Rx.eps

/-- Case-insensitive literal character (the patterns are compiled with
re.IGNORECASE). -/
def chari (c : Char) : Rx := Rx.cls (fun x => x.toLower = c)

def istr (s : String) : Rx := rxSeq (s.data.map chari)

def rxDigit : Rx := Rx.cls Char.isDigit

def rxQ14 : Rx := Rx.cls (fun c => '1' ≤ c && c ≤ '4')

def rxQ : Rx := chari 'q'

def rxSepOpt : Rx := Rx.opt (Rx.cls (fun c => c = '-' || c = '_'))

def rxTOpt : Rx := Rx.opt (chari 't')

def rxROpt : Rx := Rx.opt (chari 'r')

def rxD4 : Rx := rxSeq [rxDigit, rxDigit, rxDigit, rxDigit]

def rxD2 : Rx := rxSeq [rxDigit, rxDigit]

def rxWs : Rx := Rx.star (fun c => c = ' ' || c = '\t' || c = '\n' || c = '\r')

def pattern1 : Rx :=
  rxSeq [Rx.grp "year" rxD4, Rx.lazyStarAny, rxQ, rxTOpt, rxROpt, rxSepOpt, Rx.grp "q" rxQ14]

def pattern2 : Rx :=
  rxSeq [chari 'f', chari 'y', Rx.lazyStarAny, Rx.grp "year" rxD4, Rx.lazyStarAny,
         rxQ, rxTOpt, rxROpt, rxSepOpt, Rx.grp "q" rxQ14]

def pattern3 : Rx :=
  rxSeq [rxQ, rxTOpt, rxROpt, rxSepOpt, Rx.grp "q" rxQ14, Rx.lazyStarAny, Rx.grp "year" rxD4]

def pattern4 : Rx :=
  rxSeq [Rx.alt (istr "quarter") (Rx.alt (istr "qtr") (istr "q")), rxWs,
         Rx.grp "q" rxQ14, Rx.lazyStarAny, Rx.grp "year" rxD4]

def pattern5 : Rx :=
  rxSeq [Rx.grp "year" rxD4, Rx.lazyStarAny, rxQ, Rx.lazyStarAny, Rx.grp "q" rxQ14]

def pattern6 : Rx :=
  rxSeq [rxQ, Rx.lazyStarAny, Rx.grp "q" rxQ14, Rx.lazyStarAny, Rx.grp "year" rxD4]

def pattern7 : Rx :=
  rxSeq [Rx.grp "q" rxQ14, rxQ, chari 't', chari 'r', Rx.lazyStarAny, Rx.grp "year2" rxD2]

def pattern8 : Rx :=
  rxSeq [Rx.grp "year" rxD4, rxQ, chari 't', chari 'r', Rx.lazyStarAny, Rx.grp "q" rxQ14]

def pattern9 : Rx :=
  rxSeq [Rx.grp "q" rxQ14, rxQ, Rx.grp "year2" rxD2]

def filenamePatterns : List Rx :=
  [pattern1, pattern2, pattern3, pattern4, pattern5, pattern6, pattern7, pattern8, pattern9]

/-- The loop body of utils.find_quarter_year_from_filename: try the patterns
in order; on a match, build the quarter and year strings, validate the quarter
digit, and continue with the remaining patterns if it is invalid. -/
def goPatterns : List Rx → String → Option String × Option String
  | [], _ => (none, none)
  | p :: ps, s =>
      match searchRx p s with
      | none => goPatterns ps s
      | some caps =>
          let qn := (caps.lookup "q").getD ""
          let year : Option String :=
            match caps.lookup "year2" with
            | some y2 => some ("20" ++ y2)
            | none => caps.lookup "year"
          if qn = "1" || qn = "2" || qn = "3" || qn = "4" then
            (some ("Q" ++ qn), year)
          else goPatterns ps s

def find_quarter_year_from_filename (s : String) : Option String × Option String :=
  goPatterns filenamePatterns s

/-! ### main.compare_values and its tolerance helper -/

/-- main.is_within_tolerance: relative tolerance check with the zero guard. -/
def is_within_tolerance (a b tol : ℚ) : Bool :=
  if b = 0 then decide (a = 0)
  else decide (1 - tol ≤ a / b) && decide (a / b ≤ 1 + tol)

/-- The per-metric scaling cascade of main.compare_values: the initial
comparison (percentage adjustment when the narrative unit is percent), then,
while the status is still No Match and the unit is not percent, the x1000
retry and the /1000 retry. -/
def matchStatus (pdf_unit : String) (pdf_value excel_value tol : ℚ) : String :=
  let s1 :=
    if pdf_unit = "%" then
      let pdf_adj := pdf_value / 100
      let excel_adj := if excel_value > 1 then excel_value / 100 else excel_value
      if is_within_tolerance pdf_adj excel_adj tol then "Match" else "No Match"
    else
      if is_within_tolerance pdf_value excel_value tol then "Match" else "No Match"
  let s2 :=
    if s1 = "No Match" && pdf_unit ≠ "%" then
      if is_within_tolerance pdf_value (excel_value * 1000) tol then "Match" else s1
    else s1
  if s2 = "No Match" && pdf_unit ≠ "%" then
    if is_within_tolerance pdf_value (excel_value / 1000) tol then "Match" else s2
  else s2

structure PdfInfo where
  value : ℚ
  unit : String
deriving DecidableEq, Repr

structure CompRec where
  metric : String
  pdfSide : Option (ℚ × String)
  excelSide : Option ℚ
  status : String
deriving DecidableEq, Repr

/-- main.compare_values: one record per narrative metric (missing tabular side
is null with forced No Match, otherwise the scaling cascade), followed by one
record for every tabular-only metric with a null narrative side. -/
def compare_values (pdf : List (String × PdfInfo)) (excel : List (String × ℚ))
    (tol : ℚ) : List CompRec :=
  (pdf.map (fun pr =>
    match List.lookup pr.1 excel with
    | none => ⟨pr.1, some (pr.2.value, pr.2.unit), none, "No Match"⟩
    | some ev =>
        ⟨pr.1, some (pr.2.value, pr.2.unit), some ev, matchStatus pr.2.unit pr.2.value ev tol⟩))
  ++ excel.filterMap (fun pr =>
    match List.lookup pr.1 pdf with
    | some _ => none
    | none => some ⟨pr.1, none, some pr.2, "No Match"⟩)

/-! ### utils string helpers used by the Excel fuzzy row matcher -/

/-- Python `\s` for the ASCII inputs handled here. -/
def isPySpace (c : Char) : Bool :=
  c = ' ' || c = '\t' || c = '\n' || c = '\r' || c = '\x0b' || c = '\x0c'

/-- Python str.lower (character-list formulation; the position-based core
String.toLower does not reduce in the kernel). -/
def strLower (s : String) : String := String.mk (s.data.map Char.toLower)

/-- Python str.upper. -/
def strUpper (s : String) : String := String.mk (s.data.map Char.toUpper)

/-- Python str.strip(). -/
def strTrim (s : String) : String :=
  String.mk (((s.data.dropWhile Char.isWhitespace).reverse.dropWhile Char.isWhitespace).reverse)

/-- re.sub removing every character outside `\w` and `\s`. -/
def stripPunct (s : String) : String :=
  String.mk (s.data.filter (fun c => c.isAlphanum || c = '_' || isPySpace c))

/-- utils.is_loosely_contained_nltk_no_punctuation: substring containment
after stripping punctuation from both strings. -/
def is_loosely_contained_nltk_no_punctuation (substr text : String) : Bool :=
  decide (List.IsInfix (stripPunct substr).data (stripPunct text).data)

/-- The exponent tail accepted by the Python float constructor. -/
def expOK : List Char → Bool
  | [] => true
  | e :: r =>
      (e = 'e' || e = 'E') &&
      (let r1 := match r with
                 | '+' :: t => t
                 | '-' :: t => t
                 | t => t
       !r1.isEmpty && r1.all Char.isDigit)

/-- Model of `float(token)` succeeding, used by strip_trailing_numbers. -/
def is_numeric_token (t : String) : Bool :=
  let cs := match t.data with
            | '+' :: r => r
            | '-' :: r => r
            | r => r
  let low := cs.map Char.toLower
  if low = "inf".data || low = "infinity".data || low = "nan".data then true
  else
    let ip := cs.takeWhile Char.isDigit
    let rest := cs.dropWhile Char.isDigit
    match rest with
    | [] => !ip.isEmpty
    | '.' :: r =>
        let fp := r.takeWhile Char.isDigit
        let r2 := r.dropWhile Char.isDigit
        (!ip.isEmpty || !fp.isEmpty) && expOK r2
    | _ => !ip.isEmpty && expOK rest

/-- Helper for pySplit: accumulate the current word (reversed) while walking
the characters. -/
def pySplitAux : List Char → List Char → List String
  | [], acc => if acc.isEmpty then [] else [String.mk acc.reverse]
  | c :: rest, acc =>
      if isPySpace c then
        if acc.isEmpty then pySplitAux rest []
        else String.mk acc.reverse :: pySplitAux rest []
      else pySplitAux rest (c :: acc)

/-- Python str.split(): split on whitespace runs, no empty parts. -/
def pySplit (s : String) : List String :=
  pySplitAux s.data []

/-- utils.strip_trailing_numbers: drop trailing numeric whitespace-separated
tokens, join the rest with single spaces. -/
def strip_trailing_numbers (text : String) : String :=
  String.intercalate " " (((pySplit text).reverse.dropWhile is_numeric_token).reverse)

/-- One row of the Wagner-Fischer table, after the first entry. -/
def levRowAux (c : Char) : List Char → List Nat → Nat → List Nat
  | y :: t, p0 :: p1 :: ps, last =>
      let cur := min (p0 + (if c = y then 0 else 1)) (min (p1 + 1) (last + 1))
      cur :: levRowAux c t (p1 :: ps) cur
  | _, _, _ => []

def levRow (c : Char) (t : List Char) (prev : List Nat) : List Nat :=
  let first := prev.headD 0 + 1
  first :: levRowAux c t prev first

/-- Levenshtein distance (dynamic-programming formulation). -/
def levDist (s t : List Char) : Nat :=
  (s.foldl (fun prev c => levRow c t prev) (List.range (t.length + 1))).getLastD 0

/-- utils.get_edit_distance_score: normalized similarity in [0, 100]. -/
def get_edit_distance_score (s t : String) : ℚ :=
  let dist := levDist s.data t.data
  let maxLen := max s.data.length t.data.length
  if maxLen = 0 then (if dist = 0 then 100 else 0)
  else 100 * (1 - (dist : ℚ) / (maxLen : ℚ))

/-! ### excel_reader_no_llm -/

/-- A spreadsheet cell: none models a pandas NaN. -/
abbrev Cell := Option String

/-- astype(str) or fillna(rep).astype(str) on one cell. -/
def cellStr (rep : String) (c : Cell) : String := c.getD rep

/-- str.contains of the pattern `\dQ|Q\d` with case=False. -/
def qtAux : List Char → Bool
  | a :: b :: rest =>
      (a.isDigit && (b = 'q' || b = 'Q')) ||
      ((a = 'q' || a = 'Q') && b.isDigit) ||
      qtAux (b :: rest)
  | _ => false

def containsQuarterToken (s : String) : Bool := qtAux s.data

/-- str.fullmatch of `\d{4}`. -/
def isYear4 (s : String) : Bool :=
  s.data.length = 4 && s.data.all Char.isDigit

def qCount (row : List Cell) : Nat :=
  (row.filter (fun c => containsQuarterToken (cellStr "nan" c))).length

def yearCount (row : List Cell) : Nat :=
  (row.filter (fun c => isYear4 (cellStr "nan" c))).length

/-- The row loop of detect_header_rows, carrying the current row index and the
already-detected quarter header row. -/
def detectAux : List (List Cell) → Nat → Option Nat → Option Nat × Option Nat
  | [], _, qRow => (qRow, none)
  | row :: rest, idx, qRow =>
      let qRow' := if qCount row > 1 && qRow.isNone then some idx else qRow
      match qRow' with
      | some q =>
          if idx = q + 1 then
            if yearCount row > 1 then (some q, some idx)
            else detectAux rest (idx + 1) (some q)
          else detectAux rest (idx + 1) (some q)
      | none => detectAux rest (idx + 1) none

/-- excel_reader_no_llm.detect_header_rows. -/
def detect_header_rows (g : List (List Cell)) : Option Nat × Option Nat :=
  detectAux g 0 none

/-- set(list(s)) on the characters of a string. -/
def charSet (s : String) : Finset Char := s.data.toFinset

/-- The per-column predicate of find_column_index_for_quarter_year:
character-set equality on the quarter cell, exact equality on the
stripped year cell. -/
def colMatch (q y quarter year : String) : Bool :=
  decide (charSet (strUpper (strTrim q)) = charSet (strUpper quarter)) && decide (strTrim y = year)

def findColAux (quarter year : String) : List (String × String) → Nat → Option Nat
  | [], _ => none
  | (q, y) :: rest, i =>
      if colMatch q y quarter year then some i
      else findColAux quarter year rest (i + 1)

def findColFrom (qRow yRow : List String) (quarter year : String) : Option Nat :=
  findColAux quarter year (qRow.zip yRow) 0

/-- excel_reader_no_llm.find_column_index_for_quarter_year. -/
def find_column_index_for_quarter_year (g : List (List Cell)) (quarter year : String) :
    Option Nat × Option Nat :=
  match detect_header_rows g with
  | (some hq, some hy) =>
      let qRow := (g.getD hq []).map (cellStr "")
      let yRow := (g.getD hy []).map (cellStr "")
      (some hy, findColFrom qRow yRow quarter year)
  | _ => (none, none)

/-- The fixed metric vocabulary shared by the readers. -/
def metricsList : List String :=
  ["CET1 Capital Ratio", "Tangible book value per share", "Book value per share",
   "Net income", "Revenues"]

/-- " ".join of the non-NaN cells, stripped. -/
def rowText (row : List Cell) : String :=
  strTrim (String.intercalate " " (row.filterMap id))

/-- The inner row scan of get_metrics_from_df for one metric: track the best
(score, cell at the target column) over the rows at or below textIdx. -/
def bestForMetric (g : List (List Cell)) (textIdx colIdx : Nat) (metric : String) :
    Option Cell :=
  let nm := strLower metric
  let step := fun (acc : ℚ × Option Cell) (p : Nat × List Cell) =>
    if p.1 < textIdx then acc
    else
      let rt := rowText p.2
      if rt = "" then acc
      else
        let nrt := strLower rt
        if is_loosely_contained_nltk_no_punctuation nm nrt then
          let score := get_edit_distance_score nm (strip_trailing_numbers nrt)
          if score > acc.1 then (score, some (p.2.getD colIdx none)) else acc
        else acc
  let res := g.enum.foldl step (-1, none)
  if res.1 > -1 then res.2 else none

/-- excel_reader_no_llm.get_metrics_from_df. -/
def get_metrics_from_df (g : List (List Cell)) (textIdx colIdx : Nat) :
    List (String × Cell) :=
  metricsList.filterMap (fun m => (bestForMetric g textIdx colIdx m).map (fun v => (m, v)))

/-- excel_reader_no_llm.get_metrics_values_from_excel, with the grid of the
Summary sheet passed explicitly in place of the spreadsheet file read.  The
`not header_row or not column_index` test of the Python source is falsy both
for None and for the integer 0. -/
def get_metrics_values_from_excel (path : String) (grid : List (List Cell)) :
    List (String × Cell) :=
  match find_quarter_year_from_filename path with
  | (some quarter, some year) =>
      if quarter = "" || year = "" then []
      else
        match find_column_index_for_quarter_year grid quarter year with
        | (some hr, some ci) =>
            if hr = 0 || ci = 0 then []
            else get_metrics_from_df grid (hr + 1) ci
        | _ => []
  | _ => []

/-! ### pdf_reader_no_llm: the frequency disambiguation stage

get_metrics_values_from_pdf, after regex extraction, filters the observations
to the target quarter (or a null quarter tag), groups by (metric, value, unit)
with pandas groupby -- which sorts the group keys ascending and silently drops
rows whose unit is NaN -- stable-sorts by count descending, takes the first
group per metric, and finally left-merges onto the fixed priority table, so
every one of the five metrics appears in the output, with NaN value and unit
when it has no surviving observation. -/

structure Obs where
  metric : String
  value : ℚ
  unit : Option String
  quarter : Option String
deriving DecidableEq, Repr

/-- Strict ascending order on (value, unit) group keys, as produced by pandas
sorted grouping. -/
def keyLt (a b : ℚ × String) : Prop :=
  a.1 < b.1 ∨ (a.1 = b.1 ∧ a.2 < b.2)

instance keyLtDec (a b : ℚ × String) : Decidable (keyLt a b) := by
  unfold keyLt; infer_instance

/-- Ordered insertion without duplicates: builds the sorted list of distinct
group keys. -/
def insertKey (k : ℚ × String) : List (ℚ × String) → List (ℚ × String)
  | [] => [k]
  | x :: xs =>
      if k = x then x :: xs
      else if keyLt k x then k :: x :: xs
      else x :: insertKey k xs

def sortedKeys (vals : List (ℚ × String)) : List (ℚ × String) :=
  vals.foldl (fun acc k => insertKey k acc) []

/-- Scan the (sorted) keys keeping the one with the strictly largest count;
ties keep the earlier key, which in the sorted list is the smaller one. -/
def pickBest (vals : List (ℚ × String)) : List (ℚ × String) → Option (ℚ × String)
  | [] => none
  | k :: ks => some (ks.foldl (fun best k1 => if vals.count k1 > vals.count best then k1 else best) k)

/-- The (value, unit) pairs that take part in the grouping for one metric:
observations of that metric whose unit is not NaN (pandas groupby drops NaN
keys). -/
def groupVals (m : String) (filtered : List Obs) : List (ℚ × String) :=
  filtered.filterMap (fun o => if o.metric = m then o.unit.map (fun u => (o.value, u)) else none)

/-- The most frequent (value, unit) group of one metric, ties resolved to the
smallest key in ascending (value, unit) order. -/
def selectFor (m : String) (filtered : List Obs) : Option (ℚ × String) :=
  pickBest (groupVals m filtered) (sortedKeys (groupVals m filtered))

/-- Modelled from the spec: the tie-break the specification describes, keeping
groups in first-seen order instead of the sorted order of the code. -/
def selectForFirstSeen (m : String) (filtered : List Obs) : Option (ℚ × String) :=
  pickBest (groupVals m filtered)
    ((groupVals m filtered).foldl (fun acc k => if k ∈ acc then acc else acc ++ [k]) [])

/-- The quarter filter of get_metrics_values_from_pdf step 7. -/
def quarterFilter (obs : List Obs) (targetQ : String) : List Obs :=
  obs.filter (fun o => o.quarter = some targetQ || o.quarter = none)

structure PdfRec where
  metric : String
  value : Option ℚ
  unit : Option String
deriving DecidableEq, Repr

/-- pdf_reader_no_llm.get_metrics_values_from_pdf from the point where the
extracted observations are in hand: empty extraction returns an empty list;
otherwise one record per metric of the priority list, value and unit NaN (none)
when the metric has no surviving group. -/
def get_metrics_values_from_pdf (obs : List Obs) (targetQ : String) : List PdfRec :=
  if obs.isEmpty then []
  else
    metricsList.map (fun m =>
      match selectFor m (quarterFilter obs targetQ) with
      | some kv => ⟨m, some kv.1, some kv.2⟩
      | none => ⟨m, none, none⟩)

/-- A pattern outside the fixed list, capturing any single digit as the
quarter group: it exhibits the resolver loop skipping a successful regex match
whose quarter digit is out of range. -/
def patternDigitCap : Rx := Rx.grp "q" rxDigit


/-! ### Helper facts about the comparator at the concrete inputs of the
claims (the rational arithmetic is evaluated by norm_num because the
Batteries rational operations are irreducible). -/

lemma wt_3200_unscaled : is_within_tolerance 3200 3.2 0.05 = false := by
  norm_num [is_within_tolerance]

lemma wt_3200_x1000 : is_within_tolerance 3200 (3.2 * 1000) 0.05 = true := by
  norm_num [is_within_tolerance]

lemma wt_3200_d1000 : is_within_tolerance 3200 (3.2 / 1000) 0.05 = false := by
  norm_num [is_within_tolerance]

lemma wt_3200000_unscaled : is_within_tolerance 3200 3200000 0.05 = false := by
  norm_num [is_within_tolerance]

lemma wt_3200000_x1000 : is_within_tolerance 3200 (3200000 * 1000) 0.05 = false := by
  norm_num [is_within_tolerance]

lemma wt_3200000_d1000 : is_within_tolerance 3200 (3200000 / 1000) 0.05 = true := by
  norm_num [is_within_tolerance]

lemma matchStatus_retry_x1000 : matchStatus "" 3200 3.2 0.05 = "Match" := by
  simp [matchStatus, wt_3200_unscaled, wt_3200_x1000]

lemma matchStatus_retry_d1000 : matchStatus "" 3200 3200000 0.05 = "Match" := by
  simp [matchStatus, wt_3200000_unscaled, wt_3200000_x1000, wt_3200000_d1000]

/-! ### Claims C1 and C5: the comparator -/

/-- C1: for a narrative unit other than percent the comparator tries the
tabular value unscaled, then times 1000, then divided by 1000, at the given
relative tolerance; the first success gives Match, and if all three fail the
status is No Match.  Narrative 3200 against tabular 3.2 fails unscaled and
succeeds only at the x1000 retry; narrative 3200 against tabular 3200000
fails unscaled and at x1000 and succeeds only at the /1000 retry, at exactly
5 percent tolerance. -/
theorem c1_scale_retry_cascade (u : String) (pv ev tol : ℚ) (hu : u ≠ "%") :
    (matchStatus u pv ev tol = "Match" ↔
      (is_within_tolerance pv ev tol = true ∨
       is_within_tolerance pv (ev * 1000) tol = true ∨
       is_within_tolerance pv (ev / 1000) tol = true)) ∧
    (matchStatus u pv ev tol = "Match" ∨ matchStatus u pv ev tol = "No Match") ∧
    is_within_tolerance 3200 3.2 0.05 = false ∧
    is_within_tolerance 3200 (3.2 * 1000) 0.05 = true ∧
    matchStatus "" 3200 3.2 0.05 = "Match" ∧
    is_within_tolerance 3200 3200000 0.05 = false ∧
    is_within_tolerance 3200 (3200000 * 1000) 0.05 = false ∧
    is_within_tolerance 3200 (3200000 / 1000) 0.05 = true ∧
    matchStatus "" 3200 3200000 0.05 = "Match" := by
  refine ⟨?_, ?_, wt_3200_unscaled, wt_3200_x1000, matchStatus_retry_x1000,
    wt_3200000_unscaled, wt_3200000_x1000, wt_3200000_d1000, matchStatus_retry_d1000⟩
  · cases h1 : is_within_tolerance pv ev tol <;>
      cases h2 : is_within_tolerance pv (ev * 1000) tol <;>
        cases h3 : is_within_tolerance pv (ev / 1000) tol <;>
          simp [matchStatus, hu, h1, h2, h3]
  · cases h1 : is_within_tolerance pv ev tol <;>
      cases h2 : is_within_tolerance pv (ev * 1000) tol <;>
        cases h3 : is_within_tolerance pv (ev / 1000) tol <;>
          simp [matchStatus, hu, h1, h2, h3]

/-- Witness for c1_scale_retry_cascade at the empty unit. -/
theorem c1_scale_retry_cascade_witness :
    ("" : String) ≠ "%" ∧
    (matchStatus "" 3200 3.2 0.05 = "Match" ↔
      (is_within_tolerance 3200 3.2 0.05 = true ∨
       is_within_tolerance 3200 (3.2 * 1000) 0.05 = true ∨
       is_within_tolerance 3200 (3.2 / 1000) 0.05 = true)) :=
  ⟨by decide, (c1_scale_retry_cascade "" 3200 3.2 0.05 (by decide)).1⟩

/-- C5: when the tabular side of the tolerance predicate is 0 the result is a
match exactly when the narrative side is 0 (the division branch is not
reached), and narrative 0 percent against tabular 0 yields Match. -/
theorem c5_zero_guard :
    (∀ a tol : ℚ, is_within_tolerance a 0 tol = decide (a = 0)) ∧
    matchStatus "%" 0 0 0.05 = "Match" ∧
    is_within_tolerance 0 0 0.05 = true := by
  refine ⟨fun a tol => ?_, ?_, by norm_num [is_within_tolerance]⟩
  · simp [is_within_tolerance]
  · have h : is_within_tolerance 0 0 0.05 = true := by
      norm_num [is_within_tolerance]
    simp [matchStatus, h]

/-! ### Claim C2: the fuzzy row matcher on the tangible row -/

/-- On a one-row grid, any metric passing the containment prefilter with a
score above the initial -1 is matched to that row. -/
lemma bestForMetric_singleton (row : List Cell) (colIdx : Nat) (m : String)
    (hne : ¬ rowText row = "")
    (hcont : is_loosely_contained_nltk_no_punctuation (strLower m) (strLower (rowText row)) = true)
    (hsc : get_edit_distance_score (strLower m) (strip_trailing_numbers (strLower (rowText row))) > -1) :
    bestForMetric [row] 0 colIdx m = some (row.getD colIdx none) := by
  have he : ([row] : List (List Cell)).enum = [(0, row)] := rfl
  simp [bestForMetric, he, hne, hcont, hsc]

lemma score_c2_book :
    get_edit_distance_score (strLower "Book value per share")
      (strip_trailing_numbers (strLower (rowText [some "tangible book value per share 55.10"]))) > -1 := by
  have e1 : strLower "Book value per share" = "book value per share" := by decide
  have e2 : strip_trailing_numbers (strLower (rowText [some "tangible book value per share 55.10"]))
      = "tangible book value per share" := by decide
  rw [e1, e2]
  have hd : levDist "book value per share".data "tangible book value per share".data = 9 := by decide
  have hl1 : "book value per share".data.length = 20 := by decide
  have hl2 : "tangible book value per share".data.length = 29 := by decide
  simp only [get_edit_distance_score, hd, hl1, hl2]
  norm_num

lemma score_c2_tan :
    get_edit_distance_score (strLower "Tangible book value per share")
      (strip_trailing_numbers (strLower (rowText [some "tangible book value per share 55.10"]))) > -1 := by
  have e1 : strLower "Tangible book value per share" = "tangible book value per share" := by decide
  have e2 : strip_trailing_numbers (strLower (rowText [some "tangible book value per share 55.10"]))
      = "tangible book value per share" := by decide
  rw [e1, e2]
  have hd : levDist "tangible book value per share".data "tangible book value per share".data = 0 := by
    decide
  have hl2 : "tangible book value per share".data.length = 29 := by decide
  simp only [get_edit_distance_score, hd, hl2]
  norm_num

lemma best_c2_book :
    bestForMetric [[some "tangible book value per share 55.10"]] 0 0 "Book value per share" =
      some (some "tangible book value per share 55.10") := by
  have h := bestForMetric_singleton [some "tangible book value per share 55.10"] 0
    "Book value per share" (by decide) (by decide) score_c2_book
  simpa using h

lemma best_c2_tan :
    bestForMetric [[some "tangible book value per share 55.10"]] 0 0 "Tangible book value per share" =
      some (some "tangible book value per share 55.10") := by
  have h := bestForMetric_singleton [some "tangible book value per share 55.10"] 0
    "Tangible book value per share" (by decide) (by decide) score_c2_tan
  simpa using h

lemma best_c2_cet :
    bestForMetric [[some "tangible book value per share 55.10"]] 0 0 "CET1 Capital Ratio" = none := by
  decide

lemma best_c2_net :
    bestForMetric [[some "tangible book value per share 55.10"]] 0 0 "Net income" = none := by
  decide

lemma best_c2_rev :
    bestForMetric [[some "tangible book value per share 55.10"]] 0 0 "Revenues" = none := by
  decide

lemma get_metrics_from_df_c2 :
    get_metrics_from_df [[some "tangible book value per share 55.10"]] 0 0 =
      [("Tangible book value per share", some "tangible book value per share 55.10"),
       ("Book value per share", some "tangible book value per share 55.10")] := by
  simp [get_metrics_from_df, metricsList, best_c2_book, best_c2_tan, best_c2_cet,
    best_c2_net, best_c2_rev]

/-- C2 counterexample: on a grid whose single row joins to the text
"tangible book value per share 55.10", get_metrics_from_df does select that
row for the metric "Book value per share" (the containment prefilter is plain
substring containment, with no lookbehind), contradicting the claim. -/
theorem c2_counterexample :
    List.lookup "Book value per share"
        (get_metrics_from_df [[some "tangible book value per share 55.10"]] 0 0) =
      some (some "tangible book value per share 55.10") := by
  rw [get_metrics_from_df_c2]
  decide

/-- C2 amended: the row joining to "tangible book value per share 55.10" is a
candidate for both "Book value per share" and "Tangible book value per
share", and on a grid made of exactly that row the matcher selects it for
both metrics; the lookbehind asymmetry belongs to the PDF regex extractor,
not to the spreadsheet fuzzy row matcher. -/
theorem c2_row_selected_for_both :
    is_loosely_contained_nltk_no_punctuation "book value per share"
        "tangible book value per share 55.10" = true ∧
    is_loosely_contained_nltk_no_punctuation "tangible book value per share"
        "tangible book value per share 55.10" = true ∧
    get_metrics_from_df [[some "tangible book value per share 55.10"]] 0 0 =
      [("Tangible book value per share", some "tangible book value per share 55.10"),
       ("Book value per share", some "tangible book value per share 55.10")] :=
  ⟨by decide, by decide, get_metrics_from_df_c2⟩

/-! ### Claim C4: the filename period resolver -/

/-- C4: the three basenames 2024Q3_report, 3Q24_summary and FY2024-Q3 all
resolve to (Q3, 2024).  Patterns are tried in the fixed list order with the
first success winning: for 3Q24_summary the first eight patterns fail and the
ninth matches, its two-digit year being expanded to 20YY; and a regex match
whose captured quarter digit is out of the 1..4 range is skipped, the
iteration moving on to the next pattern, as the synthetic two-pattern cascade
shows. -/
theorem c4_filename_resolution :
    find_quarter_year_from_filename "2024Q3_report" = (some "Q3", some "2024") ∧
    find_quarter_year_from_filename "3Q24_summary" = (some "Q3", some "2024") ∧
    find_quarter_year_from_filename "FY2024-Q3" = (some "Q3", some "2024") ∧
    ((filenamePatterns.take 8).all (fun p => (searchRx p "3Q24_summary").isNone)) = true ∧
    searchRx pattern9 "3Q24_summary" = some [("q", "3"), ("year2", "24")] ∧
    searchRx patternDigitCap "5x3Q24" = some [("q", "5")] ∧
    goPatterns [patternDigitCap, pattern9] "5x3Q24" = (some "Q3", some "2024") := by
  refine ⟨by decide, by decide, by decide, by decide, by decide, by decide, by decide⟩

/-! ### Claim C10: falsy zero indices in the Excel entry point -/

/-- C10: when the located year header row index or target column index is 0,
the Excel extraction entry point returns the empty mapping, because the
Python truthiness test rejects the integer 0 exactly like None. -/
theorem c10_zero_index_empty (path : String) (grid : List (List Cell)) (q y : String)
    (r c : Nat)
    (hqy : find_quarter_year_from_filename path = (some q, some y))
    (hq : ¬ q = "") (hy : ¬ y = "")
    (hcol : find_column_index_for_quarter_year grid q y = (some r, some c))
    (hrc : r = 0 ∨ c = 0) :
    get_metrics_values_from_excel path grid = [] := by
  simp only [get_metrics_values_from_excel, hqy, hcol]
  rcases hrc with h | h <;> simp [h, hq, hy]

/-- Witness for c10_zero_index_empty: a grid whose matching column is the
leftmost one, found at column index 0 under a located header pair, still
yields an empty extraction result. -/
theorem c10_zero_index_empty_witness :
    find_quarter_year_from_filename "FY2024-Q3" = (some "Q3", some "2024") ∧
    find_column_index_for_quarter_year [[some "3Q", some "2Q"], [some "2024", some "2023"]]
      "Q3" "2024" = (some 1, some 0) ∧
    get_metrics_values_from_excel "FY2024-Q3" [[some "3Q", some "2Q"], [some "2024", some "2023"]] = [] :=
  ⟨by decide, by decide,
    c10_zero_index_empty "FY2024-Q3" [[some "3Q", some "2Q"], [some "2024", some "2023"]]
      "Q3" "2024" 1 0 (by decide) (by decide) (by decide) (by decide) (Or.inr rfl)⟩

/-! ### Claim C3: metrics with no surviving observations -/

/-- C3 counterexample: with a single CET1 observation, the disambiguator
output contains records for all five metrics, the four unmatched ones
carrying a NaN (none) value and unit instead of being omitted, contradicting
the claim that such metrics are absent from the output mapping. -/
theorem c3_counterexample :
    get_metrics_values_from_pdf [⟨"CET1 Capital Ratio", 1, some "%", some "Q3"⟩] "Q3" =
      [⟨"CET1 Capital Ratio", some 1, some "%"⟩,
       ⟨"Tangible book value per share", none, none⟩,
       ⟨"Book value per share", none, none⟩,
       ⟨"Net income", none, none⟩,
       ⟨"Revenues", none, none⟩] := by decide

/-- C3 amended: whenever the extraction produced at least one observation,
the left merge with the priority table emits a record for every one of the
five metrics, and a metric with no surviving group carries NaN (none) value
and unit; metrics are therefore never omitted, only the all-empty extraction
yields an empty mapping. -/
theorem c3_missing_metric_nan (obs : List Obs) (q : String) (hne : obs ≠ []) :
    (get_metrics_values_from_pdf obs q).map (fun r => r.metric) = metricsList ∧
    ∀ m ∈ metricsList, selectFor m (quarterFilter obs q) = none →
      (⟨m, none, none⟩ : PdfRec) ∈ get_metrics_values_from_pdf obs q := by
  have hobs : obs.isEmpty = false := by
    cases obs
    · exact absurd rfl hne
    · rfl
  constructor
  · simp only [get_metrics_values_from_pdf, hobs, Bool.false_eq_true, if_false, List.map_map]
    have h : ∀ m ∈ metricsList,
        ((fun r : PdfRec => r.metric) ∘ (fun m =>
          match selectFor m (quarterFilter obs q) with
          | some kv => (⟨m, some kv.1, some kv.2⟩ : PdfRec)
          | none => ⟨m, none, none⟩)) m = id m := by
      intro m _
      cases hsel : selectFor m (quarterFilter obs q) <;> simp [hsel]
    rw [List.map_congr_left h, List.map_id]
  · intro m hm hsel
    simp only [get_metrics_values_from_pdf, hobs, Bool.false_eq_true, if_false]
    exact List.mem_map.mpr ⟨m, hm, by simp [hsel]⟩

/-- Witness for c3_missing_metric_nan: one Net income observation, target
quarter Q3; the Revenues record is present with NaN value. -/
theorem c3_missing_metric_nan_witness :
    ([⟨"Net income", 1, some "B", none⟩] : List Obs) ≠ [] ∧
    (⟨"Revenues", none, none⟩ : PdfRec) ∈
      get_metrics_values_from_pdf [⟨"Net income", 1, some "B", none⟩] "Q3" :=
  ⟨by decide,
    (c3_missing_metric_nan [⟨"Net income", 1, some "B", none⟩] "Q3" (by decide)).2
      "Revenues" (by decide) (by decide)⟩

lemma findColAux_spec (quarter year : String) (l : List (String × String)) :
    ∀ (i j : Nat), findColAux quarter year l i = some j →
      i ≤ j ∧
      (∃ p, l[j - i]? = some p ∧ colMatch p.1 p.2 quarter year = true) ∧
      (∀ k, k < j - i → ∀ p, l[k]? = some p → colMatch p.1 p.2 quarter year = false) := by
  induction l with
  | nil => intro i j h; simp [findColAux] at h
  | cons hd tl ih =>
      obtain ⟨q, y⟩ := hd
      intro i j h
      by_cases hc : colMatch q y quarter year = true
      · rw [findColAux] at h
        simp [hc] at h
        subst h
        refine ⟨le_refl _, ⟨(q, y), by simp, hc⟩, ?_⟩
        intro k hk
        omega
      · rw [findColAux] at h
        simp [hc] at h
        obtain ⟨hle, ⟨p, hp, hpc⟩, hall⟩ := ih (i + 1) j h
        have hji : j - i = (j - (i + 1)) + 1 := by omega
        refine ⟨by omega, ⟨p, ?_, hpc⟩, ?_⟩
        · rw [hji]
          simpa using hp
        · intro k hk p' hp'
          cases k with
          | zero =>
              simp at hp'
              subst hp'
              simpa using hc
          | succ k =>
              simp at hp'
              exact hall k (by omega) p' hp'

theorem c7_charset_column_predicate :
    colMatch "Q3" "2024" "3Q" "2024" = true ∧
    colMatch "3Q" "2024" "Q3" "2024" = true ∧
    ∀ (qRow yRow : List String) (qt yr : String) (i : Nat),
      findColFrom qRow yRow qt yr = some i →
      (∃ p, (qRow.zip yRow)[i]? = some p ∧ colMatch p.1 p.2 qt yr = true) ∧
      (∀ k, k < i → ∀ p, (qRow.zip yRow)[k]? = some p → colMatch p.1 p.2 qt yr = false) := by
  refine ⟨by decide, by decide, ?_⟩
  intro qRow yRow qt yr i h
  have hs := findColAux_spec qt yr (qRow.zip yRow) 0 i h
  refine ⟨?_, ?_⟩
  · simpa using hs.2.1
  · simpa using hs.2.2

theorem c7_witness :
    findColFrom ["2Q", "3Q"] ["2024", "2024"] "Q3" "2024" = some 1 ∧
    (∃ p, ((["2Q", "3Q"].zip ["2024", "2024"]))[1]? = some p ∧ colMatch p.1 p.2 "Q3" "2024" = true) ∧
    (∀ k, k < 1 → ∀ p, ((["2Q", "3Q"].zip ["2024", "2024"]))[k]? = some p →
      colMatch p.1 p.2 "Q3" "2024" = false) :=
  ⟨by decide,
    (c7_charset_column_predicate.2.2 ["2Q", "3Q"] ["2024", "2024"] "Q3" "2024" 1 (by decide)).1,
    (c7_charset_column_predicate.2.2 ["2Q", "3Q"] ["2024", "2024"] "Q3" "2024" 1 (by decide)).2⟩

lemma detectAux_some_no_year (rows : List (List Cell)) :
    ∀ (idx q : Nat), q + 1 < idx → detectAux rows idx (some q) = (some q, none) := by
  induction rows with
  | nil => intro idx q _; simp [detectAux]
  | cons r rest ih =>
      intro idx q hlt
      have hne : ¬ idx = q + 1 := by omega
      simp [detectAux, hne]
      exact ih (idx + 1) q (by omega)

lemma detectAux_succ_of_q (r : List Cell) (rest : List (List Cell)) (q : Nat) :
    detectAux (r :: rest) (q + 1) (some q) =
      (if yearCount r > 1 then (some q, some (q + 1)) else (some q, none)) := by
  by_cases hy : yearCount r > 1
  · simp [detectAux, hy]
  · simp [detectAux, hy]
    exact detectAux_some_no_year rest (q + 2) q (by omega)

lemma detectAux_fst_some (rows : List (List Cell)) :
    ∀ (idx q : Nat), (detectAux rows idx (some q)).1 = some q := by
  induction rows with
  | nil => intro idx q; simp [detectAux]
  | cons r rest ih =>
      intro idx q
      by_cases he : idx = q + 1
      · subst he
        rw [detectAux_succ_of_q]
        by_cases hy : yearCount r > 1 <;> simp [hy]
      · simp [detectAux, he]
        exact ih (idx + 1) q

lemma detectAux_fst_none (rows : List (List Cell)) :
    ∀ (idx : Nat), (detectAux rows idx none).1 = none →
      (detectAux rows idx none).2 = none := by
  induction rows with
  | nil => intro idx _; simp [detectAux]
  | cons r rest ih =>
      intro idx h
      by_cases hq : qCount r > 1
      · exfalso
        have hne : ¬ idx = idx + 1 := by omega
        rw [show detectAux (r :: rest) idx none = detectAux rest (idx + 1) (some idx) by
          simp [detectAux, hq, hne]] at h
        rw [detectAux_fst_some rest (idx + 1) idx] at h
        cases h
      · rw [show detectAux (r :: rest) idx none = detectAux rest (idx + 1) none by
          simp [detectAux, hq]] at h ⊢
        exact ih (idx + 1) h

lemma detectAux_none_spec (rows : List (List Cell)) :
    ∀ (idx i : Nat), (detectAux rows idx none).1 = some i →
      idx ≤ i ∧
      (detectAux rows idx none).2 =
        (if yearCount (rows.getD (i + 1 - idx) []) > 1 then some (i + 1) else none) := by
  induction rows with
  | nil => intro idx i h; simp [detectAux] at h
  | cons r rest ih =>
      intro idx i h
      by_cases hq : qCount r > 1
      · have hne : ¬ idx = idx + 1 := by omega
        have hred : detectAux (r :: rest) idx none = detectAux rest (idx + 1) (some idx) := by
          simp [detectAux, hq, hne]
        rw [hred] at h ⊢
        cases rest with
        | nil =>
            simp [detectAux] at h ⊢
            subst h
            simp [yearCount]
        | cons r2 rest2 =>
            rw [detectAux_succ_of_q] at h ⊢
            by_cases hy : yearCount r2 > 1
            · simp [hy] at h ⊢
              subst h
              simp [hy]
            · simp [hy] at h ⊢
              subst h
              simp [hy]
      · have hred : detectAux (r :: rest) idx none = detectAux rest (idx + 1) none := by
          simp [detectAux, hq]
        rw [hred] at h ⊢
        obtain ⟨hle, h2⟩ := ih (idx + 1) i h
        have e1 : i + 1 - idx = (i - idx) + 1 := by omega
        have e2 : i + 1 - (idx + 1) = i - idx := by omega
        rw [e2] at h2
        rw [e1]
        refine ⟨by omega, ?_⟩
        simpa using h2

theorem c8_year_row_is_successor (g : List (List Cell)) :
    (∀ i, (detect_header_rows g).1 = some i →
       yearCount (g.getD (i + 1) []) ≤ 1 → (detect_header_rows g).2 = none) ∧
    (∀ j, (detect_header_rows g).2 = some j →
       ∃ i, (detect_header_rows g).1 = some i ∧ j = i + 1) := by
  constructor
  · intro i h hy
    unfold detect_header_rows at h ⊢
    have hs := detectAux_none_spec g 0 i h
    rw [hs.2]
    simp only [Nat.sub_zero] at *
    rw [if_neg (by omega)]
  · intro j h
    rcases h1 : (detect_header_rows g).1 with _ | i
    · unfold detect_header_rows at h h1
      rw [detectAux_fst_none g 0 h1] at h
      cases h
    · refine ⟨i, rfl, ?_⟩
      unfold detect_header_rows at h h1
      have hs := detectAux_none_spec g 0 i h1
      rw [hs.2] at h
      by_cases hy : yearCount (g.getD (i + 1 - 0) []) > 1
      · rw [if_pos hy] at h
        exact (Option.some_injective _ h).symm
      · rw [if_neg hy] at h
        cases h

theorem c8_witness :
    (detect_header_rows [[some "1Q", some "2Q"], [some "x", none]]).1 = some 0 ∧
    yearCount ([[some "1Q", some "2Q"], [some "x", none]].getD 1 []) ≤ 1 ∧
    (detect_header_rows [[some "1Q", some "2Q"], [some "x", none]]).2 = none :=
  ⟨by decide, by decide,
    (c8_year_row_is_successor [[some "1Q", some "2Q"], [some "x", none]]).1 0
      (by decide) (by decide)⟩

lemma lookup_none_iff {β : Type} (m : String) (l : List (String × β)) :
    List.lookup m l = none ↔ m ∉ l.map Prod.fst := by
  induction l with
  | nil => simp [List.lookup]
  | cons hd tl ih =>
      obtain ⟨a, b⟩ := hd
      by_cases h : m = a
      · subst h
        simp [List.lookup]
      · have hb : (m == a) = false := beq_eq_false_iff_ne.mpr h
        simp [List.lookup, hb, h, ih]

lemma compare_excel_part_map (pdf : List (String × PdfInfo)) (excel : List (String × ℚ)) :
    (excel.filterMap (fun pr =>
      match List.lookup pr.1 pdf with
      | some _ => none
      | none => some (⟨pr.1, none, some pr.2, "No Match"⟩ : CompRec))).map (fun r => r.metric)
    = (excel.filter (fun pr => (List.lookup pr.1 pdf).isNone)).map Prod.fst := by
  induction excel with
  | nil => rfl
  | cons hd tl ih =>
      cases h : List.lookup hd.1 pdf <;> simp [h, ih]

/-- C9: the comparator emits a record for every metric of the union of the
two mappings: the output metric column is the narrative key list followed by
the tabular-only key list; a narrative-only metric yields a record with a
null tabular side and status No Match; a tabular-only metric yields a record
with a null narrative side and status No Match; and with duplicate-free key
lists (as Python dict keys are) each union metric appears exactly once. -/
theorem c9_union_records (pdf : List (String × PdfInfo)) (excel : List (String × ℚ)) (tol : ℚ) :
    ((compare_values pdf excel tol).map (fun r => r.metric) =
      pdf.map Prod.fst ++ (excel.filter (fun pr => (List.lookup pr.1 pdf).isNone)).map Prod.fst) ∧
    (∀ m info, (m, info) ∈ pdf → List.lookup m excel = none →
      (⟨m, some (info.value, info.unit), none, "No Match"⟩ : CompRec) ∈ compare_values pdf excel tol) ∧
    (∀ m v, (m, v) ∈ excel → List.lookup m pdf = none →
      (⟨m, none, some v, "No Match"⟩ : CompRec) ∈ compare_values pdf excel tol) ∧
    ((pdf.map Prod.fst).Nodup → (excel.map Prod.fst).Nodup →
      ((compare_values pdf excel tol).map (fun r => r.metric)).Nodup) := by
  have ha : (compare_values pdf excel tol).map (fun r => r.metric) =
      pdf.map Prod.fst ++ (excel.filter (fun pr => (List.lookup pr.1 pdf).isNone)).map Prod.fst := by
    unfold compare_values
    rw [List.map_append]
    congr 1
    · rw [List.map_map]
      have h1 : ∀ pr ∈ pdf, ((fun r : CompRec => r.metric) ∘ (fun pr : String × PdfInfo =>
          match List.lookup pr.1 excel with
          | none => (⟨pr.1, some (pr.2.value, pr.2.unit), none, "No Match"⟩ : CompRec)
          | some ev => ⟨pr.1, some (pr.2.value, pr.2.unit), some ev,
              matchStatus pr.2.unit pr.2.value ev tol⟩)) pr = Prod.fst pr := by
        intro pr _
        cases h : List.lookup pr.1 excel <;> simp [h]
      rw [List.map_congr_left h1]
    · exact compare_excel_part_map pdf excel
  refine ⟨ha, ?_, ?_, ?_⟩
  · intro m info hmem hlk
    unfold compare_values
    refine List.mem_append.mpr (Or.inl (List.mem_map.mpr ⟨(m, info), hmem, ?_⟩))
    simp [hlk]
  · intro m v hmem hlk
    unfold compare_values
    refine List.mem_append.mpr (Or.inr (List.mem_filterMap.mpr ⟨(m, v), hmem, ?_⟩))
    simp [hlk]
  · intro hn1 hn2
    rw [ha]
    rw [List.nodup_append]
    refine ⟨hn1, ?_, ?_⟩
    · exact hn2.sublist ((List.filter_sublist excel).map Prod.fst)
    · intro x hx1 hx2
      obtain ⟨pr, hprmem, hpr⟩ := List.mem_map.mp hx2
      have hflt := List.mem_filter.mp hprmem
      have : List.lookup pr.1 pdf = none := Option.isNone_iff_eq_none.mp hflt.2
      rw [hpr] at this
      exact (lookup_none_iff x pdf).mp this hx1

/-- Witness for c9_union_records: a narrative-only metric and a tabular-only
metric each produce their No Match record. -/
theorem c9_union_records_witness :
    (("Revenues", (⟨5, "B"⟩ : PdfInfo)) ∈ [("Revenues", (⟨5, "B"⟩ : PdfInfo))] ∧
     List.lookup "Revenues" [("Extra", (7 : ℚ))] = none ∧
     (⟨"Revenues", some (5, "B"), none, "No Match"⟩ : CompRec) ∈
       compare_values [("Revenues", ⟨5, "B"⟩)] [("Extra", 7)] 1) ∧
    ((⟨"Extra", none, some 7, "No Match"⟩ : CompRec) ∈
       compare_values [("Revenues", ⟨5, "B"⟩)] [("Extra", 7)] 1) :=
  ⟨⟨by decide, by decide,
    (c9_union_records [("Revenues", ⟨5, "B"⟩)] [("Extra", 7)] 1).2.1 "Revenues" ⟨5, "B"⟩
      (by decide) (by decide)⟩,
    (c9_union_records [("Revenues", ⟨5, "B"⟩)] [("Extra", 7)] 1).2.2.1 "Extra" 7
      (by decide) (by decide)⟩

lemma keyLt_irrefl (a : ℚ × String) : ¬ keyLt a a := by
  unfold keyLt
  simp

lemma keyLt_trans {a b c : ℚ × String} (h1 : keyLt a b) (h2 : keyLt b c) : keyLt a c := by
  unfold keyLt at *
  rcases h1 with h1 | ⟨e1, h1⟩ <;> rcases h2 with h2 | ⟨e2, h2⟩
  · exact Or.inl (lt_trans h1 h2)
  · exact Or.inl (e2 ▸ h1)
  · exact Or.inl (e1 ▸ h2)
  · exact Or.inr ⟨e1.trans e2, lt_trans h1 h2⟩

lemma keyLt_connex {a b : ℚ × String} (h : a ≠ b) : keyLt a b ∨ keyLt b a := by
  unfold keyLt
  rcases lt_trichotomy a.1 b.1 with h1 | h1 | h1
  · exact Or.inl (Or.inl h1)
  · rcases lt_trichotomy a.2 b.2 with h2 | h2 | h2
    · exact Or.inl (Or.inr ⟨h1, h2⟩)
    · exact absurd (Prod.ext h1 h2) h
    · exact Or.inr (Or.inr ⟨h1.symm, h2⟩)
  · exact Or.inr (Or.inl h1)

lemma keyLt_asymm {a b : ℚ × String} (h : keyLt a b) : ¬ keyLt b a :=
  fun h2 => keyLt_irrefl a (keyLt_trans h h2)

lemma mem_insertKey (k x : ℚ × String) (l : List (ℚ × String)) :
    x ∈ insertKey k l ↔ x = k ∨ x ∈ l := by
  induction l with
  | nil => simp [insertKey]
  | cons hd tl ih =>
      by_cases he : k = hd
      · subst he
        simp only [insertKey, if_pos rfl]
        constructor
        · exact Or.inr
        · rintro (rfl | h)
          · exact List.mem_cons_self _ _
          · exact h
      · by_cases hlt : keyLt k hd
        · simp only [insertKey, if_neg he, if_pos hlt]
          simp [or_comm, or_assoc, or_left_comm]
        · simp only [insertKey, if_neg he, if_neg hlt]
          simp [ih]
          tauto

lemma pairwise_insertKey {k : ℚ × String} {l : List (ℚ × String)}
    (h : l.Pairwise keyLt) : (insertKey k l).Pairwise keyLt := by
  induction l with
  | nil => simp [insertKey]
  | cons hd tl ih =>
      obtain ⟨hhd, htl⟩ := List.pairwise_cons.mp h
      by_cases he : k = hd
      · subst he
        simpa [insertKey] using h
      · by_cases hlt : keyLt k hd
        · simp only [insertKey, if_neg he, if_pos hlt]
          refine List.pairwise_cons.mpr ⟨?_, h⟩
          intro x hx
          rcases List.mem_cons.mp hx with rfl | hx2
          · exact hlt
          · exact keyLt_trans hlt (hhd x hx2)
        · simp only [insertKey, if_neg he, if_neg hlt]
          refine List.pairwise_cons.mpr ⟨?_, ih htl⟩
          intro x hx
          rcases (mem_insertKey k x tl).mp hx with rfl | hx2
          · rcases keyLt_connex (fun e => he e.symm) with hc | hc
            · exact hc
            · exact absurd hc hlt
          · exact hhd x hx2

lemma mem_foldl_insertKey (vals : List (ℚ × String)) :
    ∀ (acc : List (ℚ × String)) (x : ℚ × String),
      x ∈ vals.foldl (fun a k => insertKey k a) acc ↔ x ∈ acc ∨ x ∈ vals := by
  induction vals with
  | nil => intro acc x; simp
  | cons v vs ih =>
      intro acc x
      rw [List.foldl_cons, ih, mem_insertKey]
      simp
      tauto

lemma pairwise_foldl_insertKey (vals : List (ℚ × String)) :
    ∀ (acc : List (ℚ × String)), acc.Pairwise keyLt →
      (vals.foldl (fun a k => insertKey k a) acc).Pairwise keyLt := by
  induction vals with
  | nil => intro acc h; exact h
  | cons v vs ih => intro acc h; exact ih _ (pairwise_insertKey h)

lemma mem_sortedKeys (vals : List (ℚ × String)) (x : ℚ × String) :
    x ∈ sortedKeys vals ↔ x ∈ vals := by
  unfold sortedKeys
  rw [mem_foldl_insertKey]
  simp

lemma pairwise_sortedKeys (vals : List (ℚ × String)) : (sortedKeys vals).Pairwise keyLt :=
  pairwise_foldl_insertKey vals [] List.Pairwise.nil

lemma foldBest_spec (vals : List (ℚ × String)) :
    ∀ (ks : List (ℚ × String)) (b : ℚ × String), (b :: ks).Pairwise keyLt →
      (ks.foldl (fun best k1 => if vals.count k1 > vals.count best then k1 else best) b) ∈ b :: ks ∧
      ((ks.foldl (fun best k1 => if vals.count k1 > vals.count best then k1 else best) b) = b ∨
        vals.count b <
          vals.count (ks.foldl (fun best k1 => if vals.count k1 > vals.count best then k1 else best) b)) ∧
      ∀ x ∈ b :: ks,
        vals.count x ≤
          vals.count (ks.foldl (fun best k1 => if vals.count k1 > vals.count best then k1 else best) b) ∧
        (vals.count x =
            vals.count (ks.foldl (fun best k1 => if vals.count k1 > vals.count best then k1 else best) b) →
          ¬ keyLt x (ks.foldl (fun best k1 => if vals.count k1 > vals.count best then k1 else best) b)) := by
  intro ks
  induction ks with
  | nil =>
      intro b _
      refine ⟨List.mem_singleton.mpr rfl, Or.inl rfl, ?_⟩
      intro x hx
      rw [List.mem_singleton] at hx
      subst hx
      exact ⟨le_refl _, fun _ => keyLt_irrefl x⟩
  | cons k ks1 ih =>
      intro b hp
      obtain ⟨hbrel, hktl⟩ := List.pairwise_cons.mp hp
      by_cases hck : vals.count k > vals.count b
      · have hred : (k :: ks1).foldl (fun best k1 => if vals.count k1 > vals.count best then k1 else best) b
            = ks1.foldl (fun best k1 => if vals.count k1 > vals.count best then k1 else best) k := by
          rw [List.foldl_cons, if_pos hck]
        obtain ⟨hmem, hor, hbound⟩ := ih k hktl
        rw [hred]
        have hkr := (hbound k (List.mem_cons_self _ _)).1
        refine ⟨List.mem_cons_of_mem _ hmem, Or.inr (lt_of_lt_of_le hck hkr), ?_⟩
        intro x hx
        rcases List.mem_cons.mp hx with rfl | hx2
        · refine ⟨le_of_lt (lt_of_lt_of_le hck hkr), ?_⟩
          intro he
          exact absurd he (ne_of_lt (lt_of_lt_of_le hck hkr))
        · exact hbound x hx2
      · have hred : (k :: ks1).foldl (fun best k1 => if vals.count k1 > vals.count best then k1 else best) b
            = ks1.foldl (fun best k1 => if vals.count k1 > vals.count best then k1 else best) b := by
          rw [List.foldl_cons, if_neg hck]
        obtain ⟨hk2, hks1⟩ := List.pairwise_cons.mp hktl
        have hp2 : (b :: ks1).Pairwise keyLt :=
          List.pairwise_cons.mpr ⟨fun x hx => hbrel x (List.mem_cons_of_mem _ hx), hks1⟩
        obtain ⟨hmem, hor, hbound⟩ := ih b hp2
        rw [hred]
        have hbr := (hbound b (List.mem_cons_self _ _)).1
        have hkb : vals.count k ≤ vals.count b := le_of_not_lt hck
        constructor
        · rcases List.mem_cons.mp hmem with hr | hr
          · rw [hr]; exact List.mem_cons_self _ _
          · exact List.mem_cons_of_mem _ (List.mem_cons_of_mem _ hr)
        refine ⟨hor, ?_⟩
        intro x hx
        rcases List.mem_cons.mp hx with rfl | hx2
        · exact hbound x (List.mem_cons_self _ _)
        · rcases List.mem_cons.mp hx2 with rfl | hx3
          · refine ⟨le_trans hkb hbr, ?_⟩
            intro he
            rcases hor with hrb | hlt2
            · rw [hrb]
              exact keyLt_asymm (hbrel x (List.mem_cons_self _ _))
            · omega
          · exact hbound x (List.mem_cons_of_mem _ hx3)

lemma pickBest_spec (vals keys : List (ℚ × String)) (r : ℚ × String)
    (hsort : keys.Pairwise keyLt) (h : pickBest vals keys = some r) :
    r ∈ keys ∧ ∀ x ∈ keys,
      vals.count x ≤ vals.count r ∧ (vals.count x = vals.count r → ¬ keyLt x r) := by
  cases keys with
  | nil => cases h
  | cons k0 ks =>
      obtain ⟨hmem, _, hbound⟩ := foldBest_spec vals ks k0 hsort
      have hr : r = ks.foldl (fun best k1 => if vals.count k1 > vals.count best then k1 else best) k0 :=
        (Option.some_injective _ h).symm
      subst hr
      exact ⟨hmem, hbound⟩

/-- C6 counterexample: two observations of the same metric with distinct
values and equal group counts; the disambiguator selects the smaller value
(2, B), while the first-seen tie-break the claim describes would select
(5, B). -/
theorem c6_counterexample :
    selectFor "Net income"
        [⟨"Net income", 5, some "B", none⟩, ⟨"Net income", 2, some "B", none⟩] = some (2, "B") ∧
    selectForFirstSeen "Net income"
        [⟨"Net income", 5, some "B", none⟩, ⟨"Net income", 2, some "B", none⟩] = some (5, "B") ∧
    ((2 : ℚ), "B") ≠ ((5 : ℚ), "B") := by
  refine ⟨by decide, by decide, by decide⟩

/-- C6 amended: per metric the disambiguator selects a (value, unit) group
of maximal occurrence count; when several groups have the same count it
selects the smallest key in ascending (value, then unit) order -- an artifact
of the sorted grouping followed by a stable sort -- not the first-seen group. -/
theorem c6_tie_break_smallest_key (m : String) (filtered : List Obs) (k : ℚ × String)
    (h : selectFor m filtered = some k) :
    k ∈ groupVals m filtered ∧
    (∀ x ∈ groupVals m filtered,
      (groupVals m filtered).count x ≤ (groupVals m filtered).count k) ∧
    (∀ x ∈ groupVals m filtered,
      (groupVals m filtered).count x = (groupVals m filtered).count k → ¬ keyLt x k) := by
  unfold selectFor at h
  obtain ⟨hmem, hbound⟩ := pickBest_spec (groupVals m filtered)
    (sortedKeys (groupVals m filtered)) k (pairwise_sortedKeys _) h
  refine ⟨(mem_sortedKeys _ _).mp hmem, ?_, ?_⟩
  · intro x hx
    exact (hbound x ((mem_sortedKeys _ _).mpr hx)).1
  · intro x hx
    exact (hbound x ((mem_sortedKeys _ _).mpr hx)).2

/-- Witness for c6_tie_break_smallest_key at the tied two-group input. -/
theorem c6_tie_break_smallest_key_witness :
    selectFor "Net income"
        [⟨"Net income", 5, some "B", none⟩, ⟨"Net income", 2, some "B", none⟩] = some (2, "B") ∧
    ((2 : ℚ), "B") ∈ groupVals "Net income"
        [⟨"Net income", 5, some "B", none⟩, ⟨"Net income", 2, some "B", none⟩] ∧
    ∀ x ∈ groupVals "Net income"
        [⟨"Net income", 5, some "B", none⟩, ⟨"Net income", 2, some "B", none⟩],
      (groupVals "Net income"
          [⟨"Net income", 5, some "B", none⟩, ⟨"Net income", 2, some "B", none⟩]).count x =
        (groupVals "Net income"
          [⟨"Net income", 5, some "B", none⟩, ⟨"Net income", 2, some "B", none⟩]).count (2, "B") →
      ¬ keyLt x (2, "B") :=
  ⟨by decide,
    (c6_tie_break_smallest_key "Net income"
      [⟨"Net income", 5, some "B", none⟩, ⟨"Net income", 2, some "B", none⟩] (2, "B") (by decide)).1,
    (c6_tie_break_smallest_key "Net income"
      [⟨"Net income", 5, some "B", none⟩, ⟨"Net income", 2, some "B", none⟩] (2, "B") (by decide)).2.2⟩
